import Mathlib

/-!
Shallow embedding of the govalidator library (theflyingcodr/govalidator).

The aggregator (`validator.go`) is a Go map from field name to a list of
failure messages; it is embedded here as an association list with
insert-or-replace update.  The check library (`functions.go`) is a catalog
of constructors returning zero-argument evaluators; each is embedded as a
function producing an optional failure message (`none` = the Go `nil`
error, i.e. a passing check).  Go runtime panics that the claims talk
about (the nil-interface method call in `ValidationFunc.String`, the
`panic` branch of the earlier generation of `NotEmpty`) are made explicit
in the result types.
-/

namespace validator

/-- A Go `error` value as produced by the checks: `none` is the nil error
(check passed), `some msg` is a failure whose `Error()` text is `msg`. -/
abbrev GoErr := Option String

/-- `type ValidationFunc func() error` from validator.go. -/
def ValidationFunc : Type := Unit → GoErr

/-- Result of an operation that may end in a Go runtime panic instead of
returning a string. -/
inductive StrOutcome where
  | value (s : String)
  | nilPanic
deriving DecidableEq

/-- Calling `err.Error()` on a Go `error` interface value: on a nil
interface this is a nil-pointer dereference, i.e. a runtime panic. -/
def errErrorCall : GoErr → StrOutcome
  | none => .nilPanic
  | some s => .value s

/-- `func (v ValidationFunc) String() string { return v().Error() }`
from validator.go lines 19-21. -/
def ValidationFunc.String (v : ValidationFunc) : StrOutcome :=
  errErrorCall (v ())

/-- `type ErrValidation map[string][]string`, embedded as an association
list (Go map iteration order is irrelevant below because rendering sorts). -/
abbrev ErrValidation := List (String × List String)

/-- `func New() ErrValidation { return map[string][]string{} }` -/
def New : ErrValidation := []

/-- Go map assignment `e[field] = out`: replace the value if the key is
present, otherwise add the binding. -/
def setKey : ErrValidation → String → List String → ErrValidation
  | [], k, v => [(k, v)]
  | (k', v') :: rest, k, v =>
    if k' = k then (k, v) :: rest else (k', v') :: setKey rest k v

/-- The list built by the loop of `ErrValidation.Validate` (validator.go
lines 35-40): `out := make([]string, len(fns), len(fns))` creates a slice
already holding `len(fns)` empty strings, and the loop appends the
message of every check that returns a non-nil error, in evaluation
order. -/
def collectOut (fns : List ValidationFunc) : List String :=
  List.replicate fns.length "" ++ fns.filterMap (fun fn => fn ())

/-- `func (e ErrValidation) Validate(field string, fns ...ValidationFunc) ErrValidation`
from validator.go lines 34-45. -/
def ErrValidation.Validate (e : ErrValidation) (field : String)
    (fns : List ValidationFunc) : ErrValidation :=
  let out := collectOut fns
  if out.length > 0 then setKey e field out else e

/-- `func (e ErrValidation) IsValid() bool { return len(e) == 0 }` -/
def ErrValidation.IsValid (e : ErrValidation) : Bool :=
  e.length == 0

/-- `fmt.Sprintf("[%s: %s]", k, strings.Join(vv, ", "))` for one map entry. -/
def formatEntry : String × List String → String
  | (k, vv) => "[" ++ k ++ ": " ++ String.intercalate ", " vv ++ "]"

/-- Strict lexicographic comparison of character lists.  Go compares
strings by UTF-8 bytes; UTF-8 encoding preserves codepoint order, so the
codepoint-wise comparison below coincides with Go's byte-wise one. -/
def strLtb : List Char → List Char → Bool
  | _, [] => false
  | [], _ :: _ => true
  | a :: as, b :: bs =>
    if Nat.blt a.val.toNat b.val.toNat then true
    else if Nat.blt b.val.toNat a.val.toNat then false
    else strLtb as bs

/-- The order `sort.Strings` sorts by: `a` at or before `b` iff `b` is
not strictly smaller. -/
def strLeb (a b : String) : Bool := !(strLtb b.data a.data)

/-- `sort.Strings`: sort a list of strings ascending.  Insertion sort
produces the same list as any other sort here because the order is
linear. -/
def sortStrings (l : List String) : List String :=
  List.insertionSort (fun a b => strLeb a b = true) l

/-- `func (e ErrValidation) String() string` from validator.go lines
53-63: an empty report renders as the fixed sentinel; otherwise every
entry is formatted, the formatted strings are sorted, and joined with
a comma. -/
def ErrValidation.render (e : ErrValidation) : String :=
  if e.IsValid then "no validation errors"
  else String.intercalate ", " (sortStrings (e.map formatEntry))

/-- `func (e ErrValidation) Error() string { return e.String() }` -/
def ErrValidation.Error (e : ErrValidation) : String := e.render

/-- Rendering as the specification words it ("for each field in order
sorted by field name"): sort the entries by field name, then format and
join.  Used only to compare against `ErrValidation.render`. -/
def renderSpecOrder (e : ErrValidation) : String :=
  if e.IsValid then "no validation errors"
  else String.intercalate ", "
    ((List.insertionSort (fun a b : String × List String => strLeb a.1 b.1 = true) e).map
      formatEntry)

/-! ## Check library (functions.go, current generation) -/

def validateEmptyMsg : String := "value cannot be empty"

def validateNotEmptyMsg : String := "value must be empty"

/-- `func StrLength(val string, min, max int) ValidationFunc`: note Go's
`len` on a string counts UTF-8 bytes. -/
def StrLength (val : String) (min max : Int) : ValidationFunc := fun _ =>
  if (val.utf8ByteSize : Int) ≥ min ∧ (val.utf8ByteSize : Int) ≤ max then none
  else some ("value must be between " ++ toString min ++ " and " ++ toString max ++ " characters")

/-- `func MinNumber[T Number](val, min T) ValidationFunc`, instantiated at
the integers. -/
def MinNumber (val min : Int) : ValidationFunc := fun _ =>
  if val ≥ min then none
  else some ("value " ++ toString val ++ " is smaller than minimum " ++ toString min)

/-- `func MaxNumber[T Number](val, max T) ValidationFunc`. -/
def MaxNumber (val max : Int) : ValidationFunc := fun _ =>
  if val ≤ max then none
  else some ("value " ++ toString val ++ " is larger than maximum " ++ toString max)

/-- `func BetweenNumber[T Number](val, min, max T) ValidationFunc`. -/
def BetweenNumber (val min max : Int) : ValidationFunc := fun _ =>
  if val ≥ min ∧ val ≤ max then none
  else some ("value " ++ toString val ++ " must be between " ++ toString min ++ " and " ++ toString max)

/-- `func PositiveNumber[T Number](val T) ValidationFunc`. -/
def PositiveNumber (val : Int) : ValidationFunc := fun _ =>
  if val > 0 then none
  else some ("value " ++ toString val ++ " should be greater than 0")

/-- `func Equal[T comparable](val, exp T) ValidationFunc`. -/
def Equal {T : Type} [DecidableEq T] [ToString T] (val exp : T) : ValidationFunc := fun _ =>
  if val = exp then none
  else some ("value " ++ toString val ++ " does not evaluate to " ++ toString exp)

/-! Quick sanity examples (concrete evaluations of the embedding). -/

example : StrLength "My Name" 4 10 () = none := by decide
example : PositiveNumber 0 () = some "value 0 should be greater than 0" := by decide
example : Equal true false () = some "value true does not evaluate to false" := by decide
example :
    New.Validate "name" [StrLength "My Name" 4 10] = [("name", [""])] := by decide

/-! ## Emptiness checks

`NotEmpty` dispatches on the reflected kind of its argument.  `GoValue`
models the kinds of values the library contract and tests exercise;
nil-able kinds carry whether the underlying reference is nil. -/

/-- A `time.Time` value: wall clock reading, monotonic/extended field and
the location pointer.  The zero value (what `reflect.Value.IsZero` tests
field by field) is `⟨0, 0, none⟩`. -/
structure GoTime where
  wall : Nat
  ext : Int
  loc : Option Unit
deriving DecidableEq

/-- A dynamically typed Go value as seen through `reflect.ValueOf`. -/
inductive GoValue where
  | nilV
  | boolV (b : Bool)
  | strV (s : String)
  | intV (n : Int)
  | uintV (n : Nat)
  | timeV (t : GoTime)
  | sliceV (elems : Option (List String))
  | mapV (entries : Option (List (String × String)))
  | ptrV (nilPtr : Bool)
  | funcV (nilFunc : Bool)
  | chanV (nilChan : Bool)
deriving DecidableEq

/-- `reflect.Value.Len()` for slice/map contents (a nil container has
length 0). -/
def goLen {α : Type} : Option (List α) → Nat
  | none => 0
  | some l => l.length

/-- `reflect.Value.IsNil()` for slice/map contents. -/
def goIsNil {α : Type} : Option (List α) → Bool
  | none => true
  | some _ => false

/-- `reflect.Value.IsZero()`: the value equals the zero value of its
type; for nil-able kinds this is the nil test, for a struct it holds iff
every field is zero. -/
def GoValue.isZero : GoValue → Bool
  | .nilV => true
  | .boolV b => b == false
  | .strV s => s == ""
  | .intV n => n == 0
  | .uintV n => n == 0
  | .timeV t => t.wall == 0 && t.ext == 0 && t.loc.isNone
  | .sliceV s => goIsNil s
  | .mapV m => goIsNil m
  | .ptrV nilPtr => nilPtr
  | .funcV nilFunc => nilFunc
  | .chanV nilChan => nilChan

/-- Result of evaluating a check that may deliberately panic. -/
inductive EvalOutcome where
  | ret (e : GoErr)
  | panics (msg : String)
deriving DecidableEq

/-- `func NotEmpty(v interface{}) ValidationFunc` from the current
functions.go: nil fails; map and slice kinds are non-empty iff the length
is positive and the reference is not nil; every other kind is non-empty
iff `reflect.Value.IsZero()` is false. -/
def NotEmpty (v : GoValue) : Unit → EvalOutcome := fun _ =>
  match v with
  | .nilV => .ret (some validateEmptyMsg)
  | .sliceV s =>
    if goLen s > 0 && !goIsNil s then .ret none else .ret (some validateEmptyMsg)
  | .mapV m =>
    if goLen m > 0 && !goIsNil m then .ret none else .ret (some validateEmptyMsg)
  | v' => if !v'.isZero then .ret none else .ret (some validateEmptyMsg)

/-- `func Empty(v interface{}) ValidationFunc`: evaluates `NotEmpty(v)()`
and inverts the outcome (a panic would propagate). -/
def Empty (v : GoValue) : Unit → EvalOutcome := fun _ =>
  match NotEmpty v () with
  | .ret none => .ret (some validateNotEmptyMsg)
  | .ret (some _) => .ret none
  | .panics m => .panics m

/-- The earlier generation of `NotEmpty` that is also present in the
repository (the superseded functions.go): array/map/slice kinds test
length and nil-ness, strings trim whitespace, signed/unsigned numbers use
a `> 0` sign test, interface/pointer kinds test nil, and every other kind
hits the deliberate `panic("unsupported type %T")` branch. -/
def NotEmptyV1 (v : GoValue) : Unit → EvalOutcome := fun _ =>
  match v with
  | .nilV => .ret (some validateEmptyMsg)
  | .sliceV s =>
    if goLen s > 0 && !goIsNil s then .ret none else .ret (some validateEmptyMsg)
  | .mapV m =>
    if goLen m > 0 && !goIsNil m then .ret none else .ret (some validateEmptyMsg)
  | .strV s =>
    if s.trim.length > 0 then .ret none else .ret (some validateEmptyMsg)
  | .intV n => if n > 0 then .ret none else .ret (some validateEmptyMsg)
  | .uintV n => if n > 0 then .ret none else .ret (some validateEmptyMsg)
  | .ptrV nilPtr => if !nilPtr then .ret none else .ret (some validateEmptyMsg)
  | .boolV _ => .panics "unsupported type bool"
  | .timeV _ => .panics "unsupported type time.Time"
  | .funcV _ => .panics "unsupported type func"
  | .chanV _ => .panics "unsupported type chan"

/-! ## Helper lemmas -/

theorem strLtb_asymm : ∀ xs ys : List Char, strLtb xs ys = true → strLtb ys xs = false := by
  intro xs
  induction xs with
  | nil =>
    intro ys h
    cases ys with
    | nil => simp [strLtb] at h
    | cons b bs => simp [strLtb]
  | cons a as ih =>
    intro ys h
    cases ys with
    | nil => simp [strLtb] at h
    | cons b bs =>
      simp only [strLtb] at h ⊢
      split_ifs at h ⊢ <;> first | rfl | (exact ih bs h) | omega | (simp_all; omega)

theorem strLtb_neg_trans : ∀ as bs cs : List Char,
    strLtb bs as = false → strLtb cs bs = false → strLtb cs as = false := by
  intro as
  induction as with
  | nil =>
    intro bs cs h1 h2
    cases cs with
    | nil => simp [strLtb]
    | cons c cs' => simp [strLtb]
  | cons a as ih =>
    intro bs cs h1 h2
    cases bs with
    | nil => exact absurd h1 (by simp [strLtb])
    | cons b bs' =>
      cases cs with
      | nil => exact absurd h2 (by simp [strLtb])
      | cons c cs' =>
        simp only [strLtb] at h1 h2 ⊢
        split_ifs at h1 h2 ⊢ <;>
          first | rfl | (exact ih bs' cs' h1 h2) | omega | (simp_all; omega)

instance strLebTotal : IsTotal String (fun a b => strLeb a b = true) := by
  refine ⟨fun a b => ?_⟩
  cases h : strLtb b.data a.data
  · left
    simp [strLeb, h]
  · right
    have := strLtb_asymm _ _ h
    simp [strLeb, this]

instance strLebTrans : IsTrans String (fun a b => strLeb a b = true) := by
  refine ⟨fun a b c hab hbc => ?_⟩
  simp only [strLeb, Bool.not_eq_true', Bool.not_eq_eq_eq_not] at hab hbc ⊢
  exact strLtb_neg_trans _ _ _ hab hbc

theorem lookup_setKey (e : ErrValidation) (k : String) (v : List String) :
    List.lookup k (setKey e k v) = some v := by
  induction e with
  | nil => simp [setKey, List.lookup]
  | cons kv rest ih =>
    obtain ⟨k', v'⟩ := kv
    by_cases h : k' = k
    · subst h
      simp [setKey, List.lookup]
    · have hb : (k == k') = false := by
        simp [Ne.symm h]
      simp [setKey, h, List.lookup, hb, ih]

theorem collectOut_length_pos (fns : List ValidationFunc) (h : fns ≠ []) :
    (collectOut fns).length > 0 := by
  have h0 : 0 < fns.length := List.length_pos.mpr h
  simp only [collectOut, List.length_append, List.length_replicate]
  exact Nat.lt_of_lt_of_le h0 (Nat.le_add_right _ _)

/-- Whether an evaluation ended in a panic. -/
def EvalOutcome.isPanic : EvalOutcome → Bool
  | .ret _ => false
  | .panics _ => true

theorem notEmpty_not_panic (v : GoValue) : (NotEmpty v ()).isPanic = false := by
  cases v <;> simp only [NotEmpty] <;> (try split_ifs) <;> rfl

theorem notEmpty_ret (v : GoValue) : ∃ e, NotEmpty v () = .ret e := by
  cases h : NotEmpty v () with
  | ret e => exact ⟨e, rfl⟩
  | panics m =>
    have := notEmpty_not_panic v
    rw [h] at this
    simp [EvalOutcome.isPanic] at this

/-! Sanity examples for the emptiness checks and the renderer. -/

example : NotEmpty (.intV 0) () = .ret (some validateEmptyMsg) := by decide
example : NotEmpty (.intV (-3)) () = .ret none := by decide
example : NotEmpty (.timeV ⟨0, 0, none⟩) () = .ret (some validateEmptyMsg) := by decide
example : NotEmpty (.chanV false) () = .ret none := by decide
example : Empty (.strV "") () = .ret none := by decide
example :
    ErrValidation.render
      [("count", ["value 0 should be greater than 0"]),
       ("isEnabled", ["value true does not evaluate to false"])] =
    "[count: value 0 should be greater than 0], [isEnabled: value true does not evaluate to false]" := by
  decide
example : ErrValidation.render [("a", ["m"]), ("a1", ["n"])] = "[a1: n], [a: m]" := by decide
example : renderSpecOrder [("a", ["m"]), ("a1", ["n"])] = "[a: m], [a1: n]" := by decide

/-! ## Claim theorems -/

/-- Claim C1: the specification states that a field key is present in the
report iff at least one check for that field failed in its most recent
`Validate` call, and that `IsValid()` is true when every check passed.
The code contradicts this (and its own doc comments and example README):
because `out` is created with length `len(fns)` rather than capacity
`len(fns)`, a `Validate` call whose single check passes still stores the
field, with a list holding one empty string, and `IsValid()` then
returns false. -/
theorem C1_validate_inserts_passing_field :
    New.Validate "name" [StrLength "My Name" 4 10] = [("name", [""])] ∧
    (New.Validate "name" [StrLength "My Name" 4 10]).IsValid = false ∧
    StrLength "My Name" 4 10 () = none := by decide

/-- Claim C2: the specification states that the list stored under a field
is exactly the failure messages of the failing checks.  The code instead
stores `len(fns)` empty strings followed by those messages: one failing
check yields a two-element list whose first element is the padding empty
string. -/
theorem C2_failure_list_padded :
    New.Validate "count" [PositiveNumber 0] =
      [("count", ["", "value 0 should be greater than 0"])] ∧
    PositiveNumber 0 () = some "value 0 should be greater than 0" := by decide

/-- Claim C3 counterexample: `String()` sorts the formatted entry strings,
not the field names.  With fields "a" and "a1" the two orders differ:
sorted by field name the entry for "a" would come first, but the code
renders the entry for "a1" first (the byte for the digit 1 sorts before
the byte for the colon). -/
theorem C3_render_not_field_sorted :
    ErrValidation.render [("a", ["m"]), ("a1", ["n"])] = "[a1: n], [a: m]" ∧
    renderSpecOrder [("a", ["m"]), ("a1", ["n"])] = "[a: m], [a1: n]" ∧
    ErrValidation.render [("a", ["m"]), ("a1", ["n"])] ≠
      renderSpecOrder [("a", ["m"]), ("a1", ["n"])] := by decide

/-- Claim C3 (amended): an empty report renders as the fixed sentinel
string; a non-empty report renders as the entry strings
`[field: msg1, msg2, ...]` sorted lexicographically as whole formatted
strings and joined by a comma, and on the claim's concrete example this
gives exactly the claimed output. -/
theorem C3_render_sorted_formatted :
    ErrValidation.render [] = "no validation errors" ∧
    ErrValidation.render
      [("count", ["value 0 should be greater than 0"]),
       ("isEnabled", ["value true does not evaluate to false"])] =
      "[count: value 0 should be greater than 0], [isEnabled: value true does not evaluate to false]" ∧
    ∀ e : ErrValidation, e ≠ [] →
      ∃ l : List String, l.Perm (e.map formatEntry) ∧
        List.Sorted (fun a b : String => strLeb a b = true) l ∧
        ErrValidation.render e = String.intercalate ", " l := by
  refine ⟨by decide, by decide, fun e he => ?_⟩
  refine ⟨sortStrings (e.map formatEntry), List.perm_insertionSort _ _,
    List.sorted_insertionSort _ _, ?_⟩
  have hv : e.IsValid = false := by
    have : e.length ≠ 0 := by
      simpa [List.length_eq_zero] using he
    simpa [ErrValidation.IsValid] using this
  simp [ErrValidation.render, hv]

/-- Claim C3 witness for the amended statement at a concrete report. -/
theorem C3_render_witness :
    ∃ l : List String, l.Perm ([(("a" : String), (["m"] : List String))].map formatEntry) ∧
      List.Sorted (fun a b : String => strLeb a b = true) l ∧
      ErrValidation.render [("a", ["m"])] = String.intercalate ", " l :=
  C3_render_sorted_formatted.2.2 [("a", ["m"])] (by decide)

/-- Claim C4 counterexample: a second `Validate` call for the same field
that supplies zero checks does not overwrite anything: the first call's
stored list (padding plus its failure message) survives unchanged, so it
is not the list computed by the second call alone (which computes the
empty list). -/
theorem C4_zero_check_second_call_keeps_prior :
    List.lookup "f"
      ((New.Validate "f" [PositiveNumber 0]).Validate "f" ([] : List ValidationFunc)) =
      some ["", "value 0 should be greater than 0"] ∧
    collectOut ([] : List ValidationFunc) = [] ∧
    (["", "value 0 should be greater than 0"] : List String) ≠ [] := by decide

/-- Claim C4 (amended): whenever the second `Validate` call for a field
supplies at least one check, the field's entry afterwards is exactly the
list computed by the second call from its own checks (`collectOut fns2`),
independent of the earlier call's checks and of the prior state; a second
call with zero checks leaves the prior entry unchanged. -/
theorem C4_second_call_overwrites (e : ErrValidation) (field : String)
    (fns1 fns2 : List ValidationFunc) (h : fns2 ≠ []) :
    List.lookup field ((e.Validate field fns1).Validate field fns2) =
      some (collectOut fns2) := by
  have hlen := collectOut_length_pos fns2 h
  unfold ErrValidation.Validate
  simp only [if_pos hlen]
  exact lookup_setKey _ _ _

/-- Claim C4 witness: the overwrite theorem applied at a concrete pair of
calls, with the stored list evaluated. -/
theorem C4_overwrite_witness :
    List.lookup "f" ((New.Validate "f" [PositiveNumber 1]).Validate "f" [PositiveNumber 0]) =
      some ["", "value 0 should be greater than 0"] :=
  (C4_second_call_overwrites New "f" [PositiveNumber 1] [PositiveNumber 0]
    (List.cons_ne_nil _ _)).trans (by decide)

/-- Claim C5: all bounds checks are inclusive.  With a well-formed range
(`min ≤ max`), `StrLength` passes when the byte length equals either
bound, `MinNumber` and `MaxNumber` pass when the value equals the bound,
and `BetweenNumber` passes when the value equals either bound. -/
theorem C5_inclusive_bounds (val : String) (min max n : Int) :
    (min ≤ max → ((val.utf8ByteSize : Int) = min ∨ (val.utf8ByteSize : Int) = max) →
      StrLength val min max () = none) ∧
    MinNumber n n () = none ∧
    MaxNumber n n () = none ∧
    (min ≤ max → (n = min ∨ n = max) → BetweenNumber n min max () = none) := by
  refine ⟨fun hr hb => ?_, by simp [MinNumber], by simp [MaxNumber], fun hr hb => ?_⟩
  · have hc : (val.utf8ByteSize : Int) ≥ min ∧ (val.utf8ByteSize : Int) ≤ max := by
      rcases hb with h | h <;> omega
    simp only [StrLength, if_pos hc]
  · have hc : n ≥ min ∧ n ≤ max := by
      rcases hb with h | h <;> omega
    simp only [BetweenNumber, if_pos hc]

/-- Claim C5 witness: the boundary cases at concrete values. -/
theorem C5_bounds_witness :
    StrLength "ab" 2 5 () = none ∧ StrLength "hello" 2 5 () = none ∧
    MinNumber 7 7 () = none ∧ MaxNumber 7 7 () = none ∧
    BetweenNumber 2 2 5 () = none ∧ BetweenNumber 5 2 5 () = none :=
  ⟨(C5_inclusive_bounds "ab" 2 5 7).1 (by decide) (Or.inl (by decide)),
   (C5_inclusive_bounds "hello" 2 5 7).1 (by decide) (Or.inr (by decide)),
   (C5_inclusive_bounds "ab" 2 5 7).2.1,
   (C5_inclusive_bounds "ab" 2 5 7).2.2.1,
   (C5_inclusive_bounds "ab" 2 5 2).2.2.2 (by decide) (Or.inl rfl),
   (C5_inclusive_bounds "ab" 2 5 5).2.2.2 (by decide) (Or.inr rfl)⟩

/-- Claim C6: `NotEmpty` fails on the zero number, the empty string and
the zero timestamp, and passes on every negative non-zero number: the
scalar rule is the generic is-zero-value test, not a positive-sign test. -/
theorem C6_notEmpty_zero_default (n : Int) :
    NotEmpty (.intV 0) () = .ret (some validateEmptyMsg) ∧
    NotEmpty (.strV "") () = .ret (some validateEmptyMsg) ∧
    NotEmpty (.timeV ⟨0, 0, none⟩) () = .ret (some validateEmptyMsg) ∧
    (n < 0 → NotEmpty (.intV n) () = .ret none) := by
  refine ⟨by decide, by decide, by decide, fun h => ?_⟩
  have hz : ((n == 0) : Bool) = false := by
    rw [beq_eq_false_iff_ne]
    omega
  simp [NotEmpty, GoValue.isZero, hz]

/-- Claim C6 witness: a concrete negative number passes `NotEmpty`. -/
theorem C6_negative_witness : NotEmpty (.intV (-5)) () = .ret none :=
  (C6_notEmpty_zero_default (-5)).2.2.2 (by decide)

/-- Claim C7: `Empty` is the exact logical complement of `NotEmpty`: for
every value, `Empty(v)()` passes iff `NotEmpty(v)()` returns a failure,
and `Empty(v)()` returns its failure iff `NotEmpty(v)()` passes. -/
theorem C7_empty_complement (v : GoValue) :
    (Empty v () = .ret none ↔ ∃ m, NotEmpty v () = .ret (some m)) ∧
    (Empty v () = .ret (some validateNotEmptyMsg) ↔ NotEmpty v () = .ret none) := by
  obtain ⟨e, he⟩ := notEmpty_ret v
  cases e <;> simp [Empty, he]

/-- Claim C8 counterexample: the current `NotEmpty` does not panic on a
function or channel value; it evaluates the generic is-zero (nil) test
and returns normally, even passing for a non-nil function or channel. -/
theorem C8_notEmpty_no_panic_on_func_chan :
    NotEmpty (.chanV false) () = .ret none ∧
    NotEmpty (.funcV false) () = .ret none ∧
    NotEmpty (.funcV true) () = .ret (some validateEmptyMsg) := by decide

/-- Claim C8 (amended): no current check evaluator panics: `NotEmpty` and
`Empty` return normally on every modelled kind, functions and channels
included; only the superseded earlier generation of `NotEmpty`, which is
still present in the repository, panics on such kinds. -/
theorem C8_no_panics (v : GoValue) :
    (NotEmpty v ()).isPanic = false ∧
    (Empty v ()).isPanic = false ∧
    (NotEmptyV1 (.funcV false) ()).isPanic = true ∧
    (NotEmptyV1 (.chanV false) ()).isPanic = true := by
  obtain ⟨e, he⟩ := notEmpty_ret v
  refine ⟨notEmpty_not_panic v, ?_, by decide, by decide⟩
  cases e <;> simp [Empty, he, EvalOutcome.isPanic]

/-- Claim C9: `ValidationFunc.String` calls `Error()` on the evaluation
result unconditionally, so it panics (nil dereference) exactly when the
check passes, and returns the failure text when the check fails. -/
theorem C9_string_panics_on_pass (f : ValidationFunc) :
    (f () = none → ValidationFunc.String f = .nilPanic) ∧
    (∀ m : String, f () = some m → ValidationFunc.String f = .value m) := by
  refine ⟨fun h => ?_, fun m h => ?_⟩
  · simp [ValidationFunc.String, errErrorCall, h]
  · simp [ValidationFunc.String, errErrorCall, h]

/-- Claim C9 witness: a passing check's `String()` panics, a failing
check's `String()` returns its message. -/
theorem C9_string_witness :
    ValidationFunc.String (MinNumber 5 3) = .nilPanic ∧
    ValidationFunc.String (PositiveNumber 0) = .value "value 0 should be greater than 0" :=
  ⟨(C9_string_panics_on_pass (MinNumber 5 3)).1 (by decide),
   (C9_string_panics_on_pass (PositiveNumber 0)).2 _ (by decide)⟩

/-- Claim C10: a `Validate` call with zero checks leaves the aggregator
completely unchanged: nothing is inserted, and every existing entry is
kept as it was. -/
theorem C10_validate_no_checks_noop (e : ErrValidation) (field : String) :
    e.Validate field [] = e := by
  simp [ErrValidation.Validate, collectOut]

end validator
